import Mathlib

/-!
Verification of the MCPServer.cpp Python SDK and test-client behaviour.

The development shallowly embeds the Python sources:
  * `src/plugins/sdk/mcp_sdk.py` — the decorator-based tool registry
    (`MCPPlugin`, `ToolInfo.to_schema`, `call_tool`, module-level `get_tools`);
  * `src/tests/test.py` — the SSE reconnection test client's event handler;
  * the server-side `EventLog.replay`, which lives in the C++ core and is
    not part of the Python sources; it is modelled from the specification.

JSON values are modelled by the inductive `Json`; a serialized JSON string is
represented by the `Json` value it denotes (Python's `json.dumps` is injective
on the values we care about, so nothing is lost by staying at the value
level).  Python runtime values that can flow out of a tool function are
modelled by `PyVal`; Python exceptions are modelled with `Except String`,
carrying `str(e)`.  `json.loads` is an external library function and is taken
as a parameter `loads : String → Option Json`, where `none` models a
`JSONDecodeError`.
-/

namespace McpSdk

/-- A JSON value (the denotation of a serialized JSON string). -/
inductive Json where
  | null
  | jbool (b : Bool)
  | jint (n : Int)
  | jstr (s : String)
  | arr (xs : List Json)
  | obj (fields : List (String × Json))

/-- Python truthiness of a value obtained from parsed JSON
(`None`, `False`, `0`, `""`, `[]` and `\x7b\x7d` are falsy). -/
def Json.truthy : Json → Bool
  | .null => false
  | .jbool b => b
  | .jint n => n != 0
  | .jstr s => s ≠ ""
  | .arr xs => !xs.isEmpty
  | .obj kvs => !kvs.isEmpty

/-- Lookup in a JSON object's field list (first match, as in a Python dict
whose keys are unique). -/
def jsonLookup (kvs : List (String × Json)) (k : String) : Option Json :=
  (kvs.find? (fun kv => kv.1 = k)).map Prod.snd

/-- Field access on a JSON object. -/
def Json.field : Json → String → Option Json
  | .obj kvs, k => jsonLookup kvs k
  | _, _ => none

/-- Whether a JSON object value carries a field named `k`. -/
def Json.hasKey : Json → String → Bool
  | .obj kvs, k => kvs.any (fun kv => kv.1 = k)
  | _, _ => false

/-- A Python runtime value as far as `call_tool` can observe it: the
constructors cover `None`, `bool`, `int`, `str`, `bytes`, `list`, `dict`
and generators/iterators (a generator is embedded as the finite list of
the values it yields). -/
inductive PyVal where
  | pynone
  | pybool (b : Bool)
  | pyint (n : Int)
  | pystr (s : String)
  | pybytes (s : String)
  | pylist (xs : List PyVal)
  | pydict (kvs : List (String × PyVal))
  | pygen (xs : List PyVal)

/-- `hasattr(result, '__iter__') and not isinstance(result, (str, bytes))`:
lists, dicts and generators pass, strings and bytes are excluded, and the
scalar types have no `__iter__`. -/
def PyVal.isIterNotStr : PyVal → Bool
  | .pylist _ => true
  | .pydict _ => true
  | .pygen _ => true
  | _ => false

/-- `list(result)` on an iterable: a list yields its elements, a generator
yields the values it produces, and a dict yields its keys. -/
def PyVal.pyList : PyVal → List PyVal
  | .pylist xs => xs
  | .pydict kvs => kvs.map (fun kv => PyVal.pystr kv.1)
  | .pygen xs => xs
  | v => [v]

/-- `isinstance(result, dict) and "error" in result`. -/
def PyVal.isDictWithError : PyVal → Bool
  | .pydict kvs => kvs.any (fun kv => kv.1 = "error")
  | _ => false

mutual

/-- `json.dumps` on a Python value, at the value level: `none` models the
`TypeError` raised on a non-serializable value (`bytes`, generators). -/
def pyToJson : PyVal → Option Json
  | .pynone => some .null
  | .pybool b => some (.jbool b)
  | .pyint n => some (.jint n)
  | .pystr s => some (.jstr s)
  | .pybytes _ => none
  | .pygen _ => none
  | .pylist xs => (pyToJsonList xs).map Json.arr
  | .pydict kvs => (pyToJsonFields kvs).map Json.obj

/-- Serialize each element of a Python list. -/
def pyToJsonList : List PyVal → Option (List Json)
  | [] => some []
  | x :: xs => do
    let j ← pyToJson x
    let js ← pyToJsonList xs
    pure (j :: js)

/-- Serialize each value of a Python dict. -/
def pyToJsonFields : List (String × PyVal) → Option (List (String × Json))
  | [] => some []
  | (k, v) :: xs => do
    let j ← pyToJson v
    let js ← pyToJsonFields xs
    pure ((k, j) :: js)

end

/-- `ToolType` from `mcp_sdk.py`. -/
inductive ToolType where
  | STANDARD
  | STREAMING
deriving DecidableEq

/-- `ToolParameter` from `mcp_sdk.py`; `default = None` is `Option.none`. -/
structure ToolParameter where
  type : String
  description : String
  required : Bool := false
  default : Option Json := none

/-- `ToolInfo` from `mcp_sdk.py`.  The Python `parameters` dict is embedded
as its association list in insertion order (Python dicts preserve it). -/
structure ToolInfo where
  name : String
  description : String
  parameters : List (String × ToolParameter) := []
  tool_type : ToolType := ToolType.STANDARD

/-- The `prop` dict built for one parameter inside `ToolInfo.to_schema`:
`type` and `description`, then `default` appended when the parameter's
default is not `None`. -/
def paramProp (p : ToolParameter) : Json :=
  match p.default with
  | some d => Json.obj [("type", Json.jstr p.type), ("description", Json.jstr p.description),
      ("default", d)]
  | none => Json.obj [("type", Json.jstr p.type), ("description", Json.jstr p.description)]

/-- Assignment `d[k] = v` on a Python dict embedded as an association list:
replace in place when the key exists, append otherwise. -/
def dictInsert (d : List (String × α)) (k : String) (v : α) : List (String × α) :=
  if d.any (fun kv => kv.1 = k) then
    d.map (fun kv => if kv.1 = k then (k, v) else kv)
  else
    d ++ [(k, v)]

/-- Python dict lookup `d[k]` / `d.get(k)` on the association list. -/
def lookupD (d : List (String × α)) (k : String) : Option α :=
  (d.find? (fun kv => kv.1 = k)).map Prod.snd

/-- One step of the loop body of `ToolInfo.to_schema`: update the
`properties` dict and the `required` list with one parameter. -/
def schemaStep (st : List (String × Json) × List String) (pp : String × ToolParameter) :
    List (String × Json) × List String :=
  (dictInsert st.1 pp.1 (paramProp pp.2),
   if pp.2.required then st.2 ++ [pp.1] else st.2)

/-- `ToolInfo.to_schema` from `mcp_sdk.py`: builds
`\x7b"type": "object", "properties": \x7b...\x7d, "required": [...]\x7d`
by folding the loop body over the parameters (the Python source mutates
`schema["properties"]` and `schema["required"]` in a `for` loop). -/
def ToolInfo.to_schema (info : ToolInfo) : Json :=
  let st := info.parameters.foldl schemaStep ([], [])
  Json.obj [("type", Json.jstr "object"),
            ("properties", Json.obj st.1),
            ("required", Json.arr (st.2.map Json.jstr))]

/-- A registered tool function: receives the keyword arguments decoded from
the request JSON and either returns a value or raises (`Except.error`
carrying `str(e)`). -/
def ToolFn := List (String × Json) → Except String PyVal

/-- The state of an `MCPPlugin`: the `_tools` and `_tool_infos` dicts. -/
structure Plugin where
  tools : List (String × ToolFn) := []
  tool_infos : List (String × ToolInfo) := []

/-- The plugin with no registered tools (a fresh `MCPPlugin()`). -/
def emptyPlugin : Plugin := ⟨[], []⟩

/-- The data supplied to one use of the `@tool(...)` decorator together
with the decorated function. -/
structure ToolDecl where
  name : Option String
  funcName : String
  description : String := ""
  tool_type : ToolType := ToolType.STANDARD
  parameters : List (String × ToolParameter) := []
  func : ToolFn

/-- `tool_name = name or func.__name__` — Python `or` also falls through on
an empty (falsy) explicit name. -/
def ToolDecl.resolvedName (r : ToolDecl) : String :=
  match r.name with
  | some s => if s = "" then r.funcName else s
  | none => r.funcName

/-- The `ToolInfo` object built by the decorator for one registration. -/
def ToolDecl.info (r : ToolDecl) : ToolInfo :=
  ⟨r.resolvedName, r.description, r.parameters, r.tool_type⟩

/-- The body of the `MCPPlugin.tool` decorator: stores the function in
`_tools` and the `ToolInfo` in `_tool_infos` under the resolved name. -/
def registerTool (p : Plugin) (r : ToolDecl) : Plugin :=
  ⟨dictInsert p.tools r.resolvedName r.func,
   dictInsert p.tool_infos r.resolvedName r.info⟩

/-- A plugin built by applying the decorator once per declaration, in
order, starting from the fresh plugin (module loading). -/
def registerAll (rs : List ToolDecl) : Plugin :=
  rs.foldl registerTool emptyPlugin

/-- `MCPPlugin.get_tools`: the values of `_tool_infos` in insertion order. -/
def Plugin.get_tools (p : Plugin) : List ToolInfo :=
  p.tool_infos.map Prod.snd

/-- The anonymous descriptor objects the module-level `get_tools` builds
for the C++ wrapper: `name`, `description`, `parameters` (the schema) and
`is_streaming`. -/
structure CToolInfo where
  name : String
  description : String
  parameters : Json
  is_streaming : Bool

/-- The module-level `get_tools` of `mcp_sdk.py`, as a function of the
plugin state held in the module-global `_plugin`. -/
def get_tools (p : Plugin) : List CToolInfo :=
  p.get_tools.map (fun info =>
    ⟨info.name, info.description, info.to_schema, info.tool_type = ToolType.STREAMING⟩)

/-- The JSON error object `\x7b"error": \x7b"type": ty, "message": msg\x7d\x7d`
returned by `call_tool` on each failure path. -/
def errorObj (ty msg : String) : Json :=
  Json.obj [("error", Json.obj [("type", Json.jstr ty), ("message", Json.jstr msg)])]

/-- `f(**args)`: keyword expansion requires the decoded arguments to be a
mapping; on anything else Python raises a `TypeError` before the function
body runs. -/
def asKwargs : Json → Except String (List (String × Json))
  | Json.obj kvs => Except.ok kvs
  | _ => Except.error "argument after ** must be a mapping"

/-- `json.dumps(\x7b"result": result\x7d)` / `json.dumps(result)` raising a
`TypeError` on a non-serializable value; the exact message text is the
standard library's and is not load-bearing here. -/
def serializeFailMsg : String := "is not JSON serializable"

/-- `json.dumps(result)` for the dict-with-"error" early return. -/
def dumpsAsIs (v : PyVal) : Json :=
  match pyToJson v with
  | some j => j
  | none => errorObj "execution_error" serializeFailMsg

/-- `json.dumps(\x7b"result": result\x7d)` for every other return value. -/
def dumpsWrapped (v : PyVal) : Json :=
  match pyToJson v with
  | some j => Json.obj [("result", j)]
  | none => errorObj "execution_error" serializeFailMsg

/-- `MCPPlugin.call_tool` from `mcp_sdk.py`.

Mirrors the source line by line: an empty `args_json` is falsy and becomes
`\x7b\x7d` without parsing; a `JSONDecodeError` (`loads _ = none`) yields the
`invalid_json` error object; a name missing from `_tools` yields the
`unknown_tool` error object; everything after that runs inside
`try/except Exception`, whose handler yields the `execution_error` object
carrying `str(e)` — this covers `f(**args)` on a non-mapping, an exception
raised by the tool function, a `KeyError` from `_tool_infos[name]`
(str of a `KeyError` is the quoted key) and a `TypeError` from
`json.dumps`.  For a streaming tool whose result is a non-string iterable,
the result is eagerly converted by `list(result)` before serialization.
A dict result containing the key `"error"` is serialized as-is; any other
result is wrapped as `\x7b"result": result\x7d`.  The method reads but never
writes `self._tools`/`self._tool_infos`, so the embedding is a pure
function of the plugin state. -/
def call_tool (loads : String → Option Json) (p : Plugin) (name args_json : String) : Json :=
  let parsed : Option Json := if args_json = "" then some (Json.obj []) else loads args_json
  match parsed with
  | none => errorObj "invalid_json" "Invalid JSON in arguments"
  | some args =>
    match lookupD p.tools name with
    | none => errorObj "unknown_tool" ("Unknown tool: " ++ name)
    | some f =>
      match asKwargs args with
      | Except.error msg => errorObj "execution_error" msg
      | Except.ok kwargs =>
        match f kwargs with
        | Except.error msg => errorObj "execution_error" msg
        | Except.ok result0 =>
          match lookupD p.tool_infos name with
          | none => errorObj "execution_error" ("'" ++ name ++ "'")
          | some info =>
            let result :=
              if info.tool_type = ToolType.STREAMING && result0.isIterNotStr then
                PyVal.pylist result0.pyList
              else result0
            if result.isDictWithError then dumpsAsIs result
            else dumpsWrapped result

/-- The sequence of serialized outputs one invocation of `call_tool` hands
to the caller: the Python function returns exactly one string. -/
def call_tool_outputs (loads : String → Option Json) (p : Plugin) (name args_json : String) :
    List Json :=
  [call_tool loads p name args_json]

/-- Modelled from the spec: the collaborator contract promises that invoking
a streaming tool yields a lazy sequence of batch JSON values, one output per
batch produced by the tool.  (The lazy sequence itself is embedded as the
finite list of batch values, one list entry per emitted batch.) -/
def specLazyStreamOutputs (batches : List Json) : List Json :=
  batches

end McpSdk

namespace EventLog

/-- An event retained by a session's EventLog.  Only the sequence number is
load-bearing for replay; kind and payload ride along opaquely. -/
structure Event where
  sequence : Nat
  kind : String
  payload : String
deriving DecidableEq

/-- Outcome of `EventLog.replay`. -/
inductive ReplayResult where
  | ok (events : List Event)
  | gapError
deriving DecidableEq

/-- Modelled from the spec: `EventLog.replay(fromSeq)` of the C++ server
core, which is not among the Python sources.  "If `fromSeq` is at or after
the oldest retained sequence minus one, returns retained events with
`sequence > fromSeq` in ascending order; otherwise returns GapError."  The
log is the retained window in ascending sequence order (the spec's
invariant); an empty log retains nothing and replays nothing. -/
def replay (log : List Event) (fromSeq : Nat) : ReplayResult :=
  match log.head? with
  | none => ReplayResult.ok []
  | some e =>
    if e.sequence ≤ fromSeq + 1 then
      ReplayResult.ok (log.filter (fun ev => fromSeq < ev.sequence))
    else
      ReplayResult.gapError

end EventLog

namespace SseTest

open McpSdk (Json jsonLookup)

/-- The fields of the `SSEClient` state that `_handle_event` and `stop`
read or write: `running`, `last_event_id` (a Python variable that starts
at the int `0` but is later assigned `event.get('id')`, which can be
`None`) and `session_id` (assigned whatever JSON value
`data.get('session_id', "")` produces). -/
structure ClientState where
  running : Bool
  last_event_id : Option Int
  session_id : Json

/-- A parsed SSE event as produced by `_parse_sse_event`: each of the
`event`, `id` and `data` keys is present only if the corresponding line
occurred in the frame. -/
structure SSEEvent where
  event : Option String
  id : Option Int
  data : Option Json

/-- `SSEClient.stop`: clears `running` (closing the HTTP stream has no
footprint in the modelled state). -/
def stop (st : ClientState) : ClientState :=
  { st with running := false }

/-- `data.get(key, dflt)`: attribute error unless `data` is a dict. -/
def pyGet (d : Json) (k : String) (dflt : Json) : Except String Json :=
  match d with
  | Json.obj kvs => Except.ok ((jsonLookup kvs k).getD dflt)
  | _ => Except.error "AttributeError: object has no attribute get"

/-- `batch[:3]`: slicing is a `TypeError` unless `batch` is a list or a
string. -/
def sliceableB : Json → Bool
  | Json.arr _ => true
  | Json.jstr _ => true
  | _ => false

/-- `SSEClient._handle_event` from `src/tests/test.py`, as a state
transformer.  `Except.error` models an exception escaping the handler
(the caller `connect` then catches it and its `finally` block clears
`running`, ending the connection).  Mirrors the source: a `session_init`
event stores `data.get('session_id', "")` and returns; a `message` event
with truthy `data` prints `batch[:3]` (whose extraction can raise), stores
the event id in `last_event_id`, and — only on an initial connection —
compares it with 10 (`None >= 10` raises a `TypeError`) and calls `stop()`
when it is at least 10.  Every other event falls through unchanged. -/
def handle_event (st : ClientState) (ev : SSEEvent) (is_reconnect : Bool) :
    Except String ClientState :=
  if ev.event = some "session_init" then
    match ev.data with
    | none => Except.error "AttributeError: NoneType object has no attribute get"
    | some d =>
      match pyGet d "session_id" (Json.jstr "") with
      | Except.error e => Except.error e
      | Except.ok sid => Except.ok { st with session_id := sid }
  else if ev.event = some "message" && (match ev.data with
      | some d => d.truthy
      | none => false) then
    match ev.data with
    | none => Except.error "unreachable: data is truthy"
    | some d =>
      match pyGet d "result" (Json.obj []) with
      | Except.error e => Except.error e
      | Except.ok inner =>
        match pyGet inner "batch" (Json.arr []) with
        | Except.error e => Except.error e
        | Except.ok _batch =>
          if sliceableB _batch then
            let st1 : ClientState := { st with last_event_id := ev.id }
            if !is_reconnect then
              match ev.id with
              | none => Except.error "TypeError: NoneType not comparable with int"
              | some n => if 10 ≤ n then Except.ok (stop st1) else Except.ok st1
            else
              Except.ok st1
          else
            Except.error "TypeError: value is not sliceable"
  else
    Except.ok st

end SseTest

/-! Concrete fixtures used by the witness and counterexample theorems. -/

namespace McpSdk

/-- A `json.loads` stand-in that rejects every string (used where only
failing parses matter). -/
def loadsNone : String → Option Json := fun _ => none

/-- A `json.loads` stand-in that parses exactly the string `"\x7b\x7d"`
to the empty JSON object. -/
def loadsEmptyObj : String → Option Json :=
  fun s => if s = "\x7b\x7d" then some (Json.obj []) else none

/-- A standard echo-like tool declaration. -/
def exDeclEcho : ToolDecl :=
  ⟨some "echo", "echo_tool", "Echo back the input text", ToolType.STANDARD,
   [("text", ⟨"string", "Text to echo", true, none⟩)],
   fun kvs => Except.ok (PyVal.pystr (match lookupD kvs "text" with
     | some (Json.jstr s) => s
     | _ => ""))⟩

/-- A streaming tool declaration whose function yields two batches from a
generator. -/
def exDeclStreamGen : ToolDecl :=
  ⟨some "sgen", "stream_tool", "", ToolType.STREAMING, [],
   fun _ => Except.ok (PyVal.pygen [PyVal.pyint 1, PyVal.pyint 2])⟩

/-- A streaming tool declaration whose function returns a dict carrying an
`"error"` key. -/
def exDeclStreamDict : ToolDecl :=
  ⟨some "sdict", "stream_dict_tool", "", ToolType.STREAMING, [],
   fun _ => Except.ok (PyVal.pydict [("error", PyVal.pystr "boom")])⟩

/-- A standard tool declaration whose function returns a dict carrying an
`"error"` key. -/
def exDeclDictStd : ToolDecl :=
  ⟨some "dstd", "dict_tool", "", ToolType.STANDARD, [],
   fun _ => Except.ok (PyVal.pydict [("error", PyVal.pystr "boom")])⟩

/-- A standard tool declaration whose function raises. -/
def exDeclRaise : ToolDecl :=
  ⟨some "boom", "raise_tool", "", ToolType.STANDARD, [],
   fun _ => Except.error "division by zero"⟩

/-- Plugin with the echo tool registered. -/
def exPluginEcho : Plugin := registerAll [exDeclEcho]

/-- Plugin with the generator-backed streaming tool registered. -/
def exPluginStreamGen : Plugin := registerAll [exDeclStreamGen]

/-- Plugin with the dict-returning streaming tool registered. -/
def exPluginStreamDict : Plugin := registerAll [exDeclStreamDict]

/-- Plugin with the dict-returning standard tool registered. -/
def exPluginDictStd : Plugin := registerAll [exDeclDictStd]

/-- Plugin with the raising tool registered. -/
def exPluginRaise : Plugin := registerAll [exDeclRaise]

/-- A `ToolParameter` with a default value. -/
def exParamA : ToolParameter := ⟨"string", "first", true, some (Json.jstr "x")⟩

/-- A `ToolParameter` without a default value. -/
def exParamB : ToolParameter := ⟨"integer", "second", false, none⟩

/-- A `ToolInfo` with one required-with-default and one optional-without-
default parameter. -/
def exInfo : ToolInfo := ⟨"t", "two params", [("a", exParamA), ("b", exParamB)], ToolType.STANDARD⟩

end McpSdk

namespace EventLog

/-- A log retaining exactly the events 1..3. -/
def exLogFull : List Event := [⟨1, "message", "a"⟩, ⟨2, "message", "b"⟩, ⟨3, "message", "c"⟩]

/-- A log whose retained window starts at sequence 4 (1..3 evicted). -/
def exLogEvicted : List Event := [⟨4, "message", "d"⟩, ⟨5, "message", "e"⟩]

end EventLog

/-! ## Supporting lemmas -/

namespace EventLog

lemma range'_drop (k : Nat) : ∀ (s n : Nat), (List.range' s n).drop k = List.range' (s + k) (n - k) := by
  induction k with
  | zero => intro s n; simp
  | succ k ih =>
    intro s n
    cases n with
    | zero => simp
    | succ n =>
      rw [List.range'_succ, List.drop_succ_cons, ih (s + 1) n, Nat.succ_sub_succ,
        Nat.add_assoc, Nat.add_comm 1 k]

lemma filter_gt_of_lt (log : List Event) : ∀ (m cnt k : Nat),
    log.map Event.sequence = List.range' m cnt → k < m →
    log.filter (fun ev => k < ev.sequence) = log := by
  induction log with
  | nil => intro m cnt k _ _; rfl
  | cons e t ih =>
    intro m cnt k h hk
    cases cnt with
    | zero => simp at h
    | succ cnt =>
      rw [List.range'_succ] at h
      simp only [List.map_cons, List.cons.injEq] at h
      obtain ⟨he, ht⟩ := h
      have hkeep : decide (k < e.sequence) = true := by
        simp [he]; omega
      simp only [List.filter_cons, hkeep, if_true]
      rw [ih (m + 1) cnt k ht (by omega)]

lemma filter_gt_eq_drop (log : List Event) : ∀ (m cnt k : Nat),
    log.map Event.sequence = List.range' m cnt → m ≤ k + 1 →
    log.filter (fun ev => k < ev.sequence) = log.drop (k + 1 - m) := by
  induction log with
  | nil => intro m cnt k _ _; simp
  | cons e t ih =>
    intro m cnt k h hm
    cases cnt with
    | zero => simp at h
    | succ cnt =>
      rw [List.range'_succ] at h
      simp only [List.map_cons, List.cons.injEq] at h
      obtain ⟨he, ht⟩ := h
      by_cases hmk : m = k + 1
      · have : k + 1 - m = 0 := by omega
        rw [this, List.drop_zero]
        have hkeep : decide (k < e.sequence) = true := by
          simp [he]; omega
        simp only [List.filter_cons, hkeep, if_true]
        rw [filter_gt_of_lt t (m + 1) cnt k ht (by omega)]
      · have hlt : e.sequence ≤ k := by omega
        have hdropv : decide (k < e.sequence) = false := by
          simp [he]; omega
        simp only [List.filter_cons, hdropv, Bool.false_eq_true, if_false]
        rw [ih (m + 1) cnt k ht (by omega)]
        have : k + 1 - m = (k + 1 - (m + 1)) + 1 := by omega
        rw [this, List.drop_succ_cons]

end EventLog

namespace McpSdk

lemma dictInsert_fresh {α : Type} (d : List (String × α)) (k : String) (v : α)
    (h : d.any (fun kv => kv.1 = k) = false) : dictInsert d k v = d ++ [(k, v)] := by
  simp [dictInsert, h]

lemma registerAll_go : ∀ (rs : List ToolDecl) (p : Plugin),
    (∀ r ∈ rs, p.tools.any (fun kv => kv.1 = r.resolvedName) = false) →
    (∀ r ∈ rs, p.tool_infos.any (fun kv => kv.1 = r.resolvedName) = false) →
    (rs.map ToolDecl.resolvedName).Nodup →
    rs.foldl registerTool p =
      ⟨p.tools ++ rs.map (fun r => (r.resolvedName, r.func)),
       p.tool_infos ++ rs.map (fun r => (r.resolvedName, r.info))⟩ := by
  intro rs
  induction rs with
  | nil => intro p _ _ _; simp
  | cons r rs ih =>
    intro p h1 h2 hnd
    have hm : r ∈ r :: rs := List.mem_cons_self r rs
    have e1 : registerTool p r =
        ⟨p.tools ++ [(r.resolvedName, r.func)], p.tool_infos ++ [(r.resolvedName, r.info)]⟩ := by
      simp [registerTool, dictInsert_fresh _ _ _ (h1 r hm), dictInsert_fresh _ _ _ (h2 r hm)]
    have hnotin : r.resolvedName ∉ rs.map ToolDecl.resolvedName := (List.nodup_cons.mp hnd).1
    have hne : ∀ r' ∈ rs, ¬ (r.resolvedName = r'.resolvedName) := by
      intro r' hr' he
      exact hnotin (by rw [he]; exact List.mem_map_of_mem ToolDecl.resolvedName hr')
    have h1' : ∀ r' ∈ rs,
        (p.tools ++ [(r.resolvedName, r.func)]).any (fun kv => kv.1 = r'.resolvedName) = false := by
      intro r' hr'
      simp [List.any_append, h1 r' (List.mem_cons_of_mem r hr'), hne r' hr']
    have h2' : ∀ r' ∈ rs,
        (p.tool_infos ++ [(r.resolvedName, r.info)]).any
          (fun kv => kv.1 = r'.resolvedName) = false := by
      intro r' hr'
      simp [List.any_append, h2 r' (List.mem_cons_of_mem r hr'), hne r' hr']
    rw [List.foldl_cons, e1, ih ⟨p.tools ++ [(r.resolvedName, r.func)],
      p.tool_infos ++ [(r.resolvedName, r.info)]⟩ h1' h2' (List.nodup_cons.mp hnd).2]
    simp

lemma schema_foldl : ∀ (ps : List (String × ToolParameter)) (acc : List (String × Json))
    (req : List String),
    (∀ pp ∈ ps, acc.any (fun kv => kv.1 = pp.1) = false) →
    (ps.map Prod.fst).Nodup →
    ps.foldl schemaStep (acc, req) =
      (acc ++ ps.map (fun pp => (pp.1, paramProp pp.2)),
       req ++ (ps.filter (fun pp => pp.2.required)).map Prod.fst) := by
  intro ps
  induction ps with
  | nil => intro acc req _ _; simp
  | cons pp ps ih =>
    intro acc req h hnd
    have e1 : schemaStep (acc, req) pp =
        (acc ++ [(pp.1, paramProp pp.2)], if pp.2.required then req ++ [pp.1] else req) := by
      simp [schemaStep, dictInsert_fresh _ _ _ (h pp (List.mem_cons_self pp ps))]
    have hnotin : pp.1 ∉ ps.map Prod.fst := (List.nodup_cons.mp hnd).1
    have hne : ∀ pp' ∈ ps, ¬ (pp.1 = pp'.1) := by
      intro pp' hp' he
      exact hnotin (by rw [he]; exact List.mem_map_of_mem Prod.fst hp')
    have h' : ∀ pp' ∈ ps,
        (acc ++ [(pp.1, paramProp pp.2)]).any (fun kv => kv.1 = pp'.1) = false := by
      intro pp' hp'
      simp [List.any_append, h pp' (List.mem_cons_of_mem pp hp'), hne pp' hp']
    rw [List.foldl_cons, e1]
    cases hreq : pp.2.required with
    | true =>
      rw [if_pos rfl,
        ih (acc ++ [(pp.1, paramProp pp.2)]) (req ++ [pp.1]) h' (List.nodup_cons.mp hnd).2]
      simp [List.filter_cons, hreq]
    | false =>
      rw [if_neg Bool.false_ne_true,
        ih (acc ++ [(pp.1, paramProp pp.2)]) req h' (List.nodup_cons.mp hnd).2]
      simp [List.filter_cons, hreq]

end McpSdk

/-! ## Claim theorems -/

/-- C1: on a log retaining exactly the events with sequence numbers 1..N
(the retained window starting at 1, so every `k` is inside it), for `k < N`
`replay k` returns exactly the events `k+1..N` — the last `N - k` log
entries — in ascending sequence order; and on a log whose retained window
starts at `m` with `k` older than `m - 1` (that is `k + 1 < m`), `replay k`
returns GapError and no partial sequence.  `replay` is modelled from the
spec because the EventLog lives in the C++ server core, outside the Python
sources. -/
theorem c1_replay_window :
    (∀ (log : List EventLog.Event) (N k : Nat),
      log.map EventLog.Event.sequence = List.range' 1 N → k < N →
      EventLog.replay log k = EventLog.ReplayResult.ok (log.drop k) ∧
      (log.drop k).map EventLog.Event.sequence = List.range' (k + 1) (N - k))
  ∧ (∀ (log : List EventLog.Event) (m cnt k : Nat),
      log.map EventLog.Event.sequence = List.range' m cnt → 0 < cnt → k + 1 < m →
      EventLog.replay log k = EventLog.ReplayResult.gapError) := by
  constructor
  · intro log N k h hk
    match log, h with
    | [], h =>
      exfalso
      cases N with
      | zero => omega
      | succ N => rw [List.range'_succ] at h; simp at h
    | e :: t, h =>
      cases N with
      | zero => omega
      | succ N =>
        have horig := h
        rw [List.range'_succ] at h
        have h' := h
        simp only [List.map_cons, List.cons.injEq] at h'
        obtain ⟨he, _⟩ := h'
        constructor
        · have hle : e.sequence ≤ k + 1 := by omega
          simp only [EventLog.replay, List.head?_cons]
          rw [if_pos hle]
          have hfd := EventLog.filter_gt_eq_drop (e :: t) 1 (N + 1) k horig (by omega)
          have hk1 : k + 1 - 1 = k := by omega
          rw [hfd, hk1]
        · rw [List.map_drop, horig, EventLog.range'_drop, Nat.add_comm 1 k]
  · intro log m cnt k h hcnt hk
    match log, h with
    | [], h =>
      exfalso
      cases cnt with
      | zero => omega
      | succ cnt => rw [List.range'_succ] at h; simp at h
    | e :: t, h =>
      cases cnt with
      | zero => omega
      | succ cnt =>
        rw [List.range'_succ] at h
        simp only [List.map_cons, List.cons.injEq] at h
        obtain ⟨he, _⟩ := h
        simp only [EventLog.replay, List.head?_cons]
        rw [if_neg (by omega)]

/-- C1 witness: on the concrete log retaining 1..3, `replay 1` returns the
events 2..3, and on the concrete log retaining 4..5, `replay 1` returns
GapError. -/
theorem c1_replay_window_witness :
    (EventLog.replay EventLog.exLogFull 1 = EventLog.ReplayResult.ok (EventLog.exLogFull.drop 1) ∧
     (EventLog.exLogFull.drop 1).map EventLog.Event.sequence = List.range' 2 2)
  ∧ EventLog.replay EventLog.exLogEvicted 1 = EventLog.ReplayResult.gapError :=
  ⟨c1_replay_window.1 EventLog.exLogFull 3 1 rfl (by decide),
   c1_replay_window.2 EventLog.exLogEvicted 4 2 1 rfl (by decide) (by decide)⟩

/-- C3: for every tool name and every non-empty argument string that fails
JSON decoding (`loads s = none`), `call_tool` returns — it does not raise —
the `invalid_json` error object of shape
`\x7b"error": \x7b"type": ..., "message": ...\x7d\x7d`; and the result is the
same whatever tools are registered, so no registered tool function is
invoked. -/
theorem c3_invalid_json (loads : String → Option McpSdk.Json) (p q : McpSdk.Plugin)
    (name s : String) (hne : s ≠ "") (hbad : loads s = none) :
    McpSdk.call_tool loads p name s =
      McpSdk.errorObj "invalid_json" "Invalid JSON in arguments" ∧
    McpSdk.call_tool loads p name s = McpSdk.call_tool loads q name s := by
  constructor <;> simp [McpSdk.call_tool, hne, hbad]

/-- C3 witness: a malformed argument string against the echo plugin and
against the empty plugin. -/
theorem c3_invalid_json_witness :
    McpSdk.call_tool McpSdk.loadsNone McpSdk.exPluginEcho "echo" "not json" =
      McpSdk.errorObj "invalid_json" "Invalid JSON in arguments" ∧
    McpSdk.call_tool McpSdk.loadsNone McpSdk.exPluginEcho "echo" "not json" =
      McpSdk.call_tool McpSdk.loadsNone McpSdk.emptyPlugin "echo" "not json" :=
  c3_invalid_json McpSdk.loadsNone McpSdk.exPluginEcho McpSdk.emptyPlugin "echo" "not json"
    (by decide) rfl

/-- C4: for every tool name absent from `_tools` and every well-formed
argument string (empty, or accepted by `json.loads`), `call_tool` returns
the `unknown_tool` error object naming the missing tool.  The source method
only reads `self._tools`/`self._tool_infos`, which the embedding reflects
by being a pure function of the plugin state, so the registry is
unchanged.  (The separately cited `ExamplePlugin.call_tool` of
`mcp_python_plugin.py` has no registry and raises `ValueError` instead;
this theorem is about the registry-backed `MCPPlugin.call_tool`.) -/
theorem c4_unknown_tool (loads : String → Option McpSdk.Json) (p : McpSdk.Plugin)
    (name s : String) (hargs : s = "" ∨ ∃ j, loads s = some j)
    (hmiss : McpSdk.lookupD p.tools name = none) :
    McpSdk.call_tool loads p name s =
      McpSdk.errorObj "unknown_tool" ("Unknown tool: " ++ name) := by
  rcases hargs with h | ⟨j, h⟩
  · subst h
    simp [McpSdk.call_tool, hmiss]
  · by_cases hs : s = ""
    · subst hs
      simp [McpSdk.call_tool, hmiss]
    · simp [McpSdk.call_tool, hs, h, hmiss]

/-- C4 witness: an unregistered tool name with empty arguments against the
empty plugin. -/
theorem c4_unknown_tool_witness :
    McpSdk.call_tool McpSdk.loadsNone McpSdk.emptyPlugin "nope" "" =
      McpSdk.errorObj "unknown_tool" ("Unknown tool: " ++ "nope") :=
  c4_unknown_tool McpSdk.loadsNone McpSdk.emptyPlugin "nope" "" (Or.inl rfl) rfl

/-- C5: for every registered tool whose function raises on the decoded
arguments (`f kwargs = Except.error msg`, where `msg` is `str(e)`),
`call_tool` catches the exception and returns the `execution_error` error
object carrying exactly that message; nothing propagates to the caller
(the embedding's total return type reflects the enclosing
`except Exception` handler of the source). -/
theorem c5_execution_error (loads : String → Option McpSdk.Json) (p : McpSdk.Plugin)
    (name s : String) (args : McpSdk.Json) (f : McpSdk.ToolFn)
    (kwargs : List (String × McpSdk.Json)) (msg : String)
    (hparse : (if s = "" then some (McpSdk.Json.obj []) else loads s) = some args)
    (hf : McpSdk.lookupD p.tools name = some f)
    (hkw : McpSdk.asKwargs args = Except.ok kwargs)
    (hraise : f kwargs = Except.error msg) :
    McpSdk.call_tool loads p name s = McpSdk.errorObj "execution_error" msg := by
  simp [McpSdk.call_tool, hparse, hf, hkw, hraise]

/-- C5 witness: the registered raising tool reports its exception text. -/
theorem c5_execution_error_witness :
    McpSdk.call_tool McpSdk.loadsNone McpSdk.exPluginRaise "boom" "" =
      McpSdk.errorObj "execution_error" "division by zero" :=
  c5_execution_error McpSdk.loadsNone McpSdk.exPluginRaise "boom" ""
    (McpSdk.Json.obj []) McpSdk.exDeclRaise.func [] "division by zero" rfl rfl rfl rfl

/-- C9: for every tool name, `call_tool` on the empty argument string
returns the same result as on the string `"\x7b\x7d"`: the falsy empty
string short-circuits to empty arguments instead of being reported as
`invalid_json` (Python's `json.loads("\x7b\x7d")` yields the empty dict,
which is the hypothesis on `loads`). -/
theorem c9_empty_args (loads : String → Option McpSdk.Json) (p : McpSdk.Plugin)
    (name : String) (h : loads "\x7b\x7d" = some (McpSdk.Json.obj [])) :
    McpSdk.call_tool loads p name "" = McpSdk.call_tool loads p name "\x7b\x7d" := by
  simp [McpSdk.call_tool, h]

/-- C9 witness: empty string and empty-object string agree on the echo
plugin. -/
theorem c9_empty_args_witness :
    McpSdk.call_tool McpSdk.loadsEmptyObj McpSdk.exPluginEcho "echo" "" =
      McpSdk.call_tool McpSdk.loadsEmptyObj McpSdk.exPluginEcho "echo" "\x7b\x7d" :=
  c9_empty_args McpSdk.loadsEmptyObj McpSdk.exPluginEcho "echo" rfl

/-- C2 counterexample: the streaming tool `sgen` produces the two batches
`1` and `2`, yet one invocation of `call_tool` hands the caller a single
serialized value — `\x7b"result": [1, 2]\x7d` — rather than the lazy
per-batch sequence `[1, 2]` the claim promises: the iterator is fully
materialized by `list(result)` before anything is returned. -/
theorem c2_lazy_stream_counterexample :
    ¬ (McpSdk.call_tool_outputs McpSdk.loadsNone McpSdk.exPluginStreamGen "sgen" "" =
       McpSdk.specLazyStreamOutputs [McpSdk.Json.jint 1, McpSdk.Json.jint 2]) := by
  intro h
  have hlen := congrArg List.length h
  simp [McpSdk.call_tool_outputs, McpSdk.specLazyStreamOutputs] at hlen

/-- C2 amended: invoking a registered streaming tool whose function yields
the (serializable) batches `xs` from a generator returns the single,
eagerly materialized JSON value `\x7b"result": [xs...]\x7d`; no lazy
per-batch sequence is produced. -/
theorem c2_streaming_materializes (loads : String → Option McpSdk.Json) (p : McpSdk.Plugin)
    (name s : String) (args : McpSdk.Json) (f : McpSdk.ToolFn)
    (kwargs : List (String × McpSdk.Json)) (info : McpSdk.ToolInfo)
    (xs : List McpSdk.PyVal) (js : List McpSdk.Json)
    (hparse : (if s = "" then some (McpSdk.Json.obj []) else loads s) = some args)
    (hf : McpSdk.lookupD p.tools name = some f)
    (hkw : McpSdk.asKwargs args = Except.ok kwargs)
    (hres : f kwargs = Except.ok (McpSdk.PyVal.pygen xs))
    (hinfo : McpSdk.lookupD p.tool_infos name = some info)
    (hstream : info.tool_type = McpSdk.ToolType.STREAMING)
    (hser : McpSdk.pyToJsonList xs = some js) :
    McpSdk.call_tool loads p name s =
      McpSdk.Json.obj [("result", McpSdk.Json.arr js)] := by
  simp [McpSdk.call_tool, hparse, hf, hkw, hres, hinfo, hstream, McpSdk.PyVal.isIterNotStr,
    McpSdk.PyVal.pyList, McpSdk.PyVal.isDictWithError, McpSdk.dumpsWrapped, McpSdk.pyToJson,
    hser]

/-- C2 witness: the generator-backed streaming tool returns the single
materialized value. -/
theorem c2_streaming_materializes_witness :
    McpSdk.call_tool McpSdk.loadsNone McpSdk.exPluginStreamGen "sgen" "" =
      McpSdk.Json.obj [("result", McpSdk.Json.arr [McpSdk.Json.jint 1, McpSdk.Json.jint 2])] :=
  c2_streaming_materializes McpSdk.loadsNone McpSdk.exPluginStreamGen "sgen" ""
    (McpSdk.Json.obj []) McpSdk.exDeclStreamGen.func [] McpSdk.exDeclStreamGen.info
    [McpSdk.PyVal.pyint 1, McpSdk.PyVal.pyint 2] [McpSdk.Json.jint 1, McpSdk.Json.jint 2]
    rfl rfl rfl rfl rfl rfl rfl

/-- C8 counterexample: the claim fails for a streaming tool.  The streaming
tool `sdict` returns the dict `\x7b"error": "boom"\x7d`, but the streaming
branch first applies `list(...)` to the dict (a dict is iterable), turning
it into its key list `["error"]`, so `call_tool` returns
`\x7b"result": ["error"]\x7d` instead of the dict serialized as-is. -/
theorem c8_error_dict_counterexample :
    ¬ (McpSdk.call_tool McpSdk.loadsNone McpSdk.exPluginStreamDict "sdict" "" =
       McpSdk.Json.obj [("error", McpSdk.Json.jstr "boom")]) := by
  intro h
  have h2 : McpSdk.Json.obj [("result", McpSdk.Json.arr [McpSdk.Json.jstr "error"])] =
      McpSdk.Json.obj [("error", McpSdk.Json.jstr "boom")] := h
  simp at h2

/-- C8 amended: for every registered tool whose result is not rerouted by
the streaming branch (here: a standard tool) and whose result is
JSON-serializable, a dict result containing the key `"error"` is serialized
as-is, and every other result is wrapped as `\x7b"result": ...\x7d` — so a
successful return value carrying an `"error"` key is indistinguishable from
a reported failure. -/
theorem c8_error_dict_passthrough (loads : String → Option McpSdk.Json) (p : McpSdk.Plugin)
    (name s : String) (args : McpSdk.Json) (f : McpSdk.ToolFn)
    (kwargs : List (String × McpSdk.Json)) (info : McpSdk.ToolInfo) (r : McpSdk.PyVal)
    (hparse : (if s = "" then some (McpSdk.Json.obj []) else loads s) = some args)
    (hf : McpSdk.lookupD p.tools name = some f)
    (hkw : McpSdk.asKwargs args = Except.ok kwargs)
    (hres : f kwargs = Except.ok r)
    (hinfo : McpSdk.lookupD p.tool_infos name = some info)
    (hstd : info.tool_type = McpSdk.ToolType.STANDARD) :
    (∀ j : McpSdk.Json, r.isDictWithError = true → McpSdk.pyToJson r = some j →
       McpSdk.call_tool loads p name s = j)
  ∧ (∀ j : McpSdk.Json, r.isDictWithError = false → McpSdk.pyToJson r = some j →
       McpSdk.call_tool loads p name s = McpSdk.Json.obj [("result", j)]) := by
  constructor
  · intro j hdict hser
    simp [McpSdk.call_tool, hparse, hf, hkw, hres, hinfo, hstd, hdict, McpSdk.dumpsAsIs, hser]
  · intro j hdict hser
    simp [McpSdk.call_tool, hparse, hf, hkw, hres, hinfo, hstd, hdict, McpSdk.dumpsWrapped, hser]

/-- C6: for every sequence of tool declarations registered through the
decorator (with the distinct resolved names the Python dicts guarantee),
the module-level `get_tools` returns exactly one descriptor per registered
tool, in registration order, carrying the tool's resolved name, its
description, the JSON schema produced from its parameters, and an
`is_streaming` flag that holds exactly when the tool was registered with
the streaming tool type. -/
theorem c6_get_tools_descriptors (rs : List McpSdk.ToolDecl)
    (hnd : (rs.map McpSdk.ToolDecl.resolvedName).Nodup) :
    McpSdk.get_tools (McpSdk.registerAll rs) =
      rs.map (fun r => ⟨r.resolvedName, r.description, r.info.to_schema,
        decide (r.tool_type = McpSdk.ToolType.STREAMING)⟩) := by
  rw [McpSdk.registerAll,
    McpSdk.registerAll_go rs McpSdk.emptyPlugin (by intro r _; rfl) (by intro r _; rfl) hnd]
  simp [McpSdk.get_tools, McpSdk.Plugin.get_tools, McpSdk.emptyPlugin, McpSdk.ToolDecl.info,
    List.map_map, Function.comp]

/-- C6 witness: registering a standard and a streaming tool yields the two
descriptors with `is_streaming` false and true respectively. -/
theorem c6_get_tools_descriptors_witness :
    McpSdk.get_tools (McpSdk.registerAll [McpSdk.exDeclEcho, McpSdk.exDeclStreamGen]) =
      [⟨"echo", "Echo back the input text", McpSdk.exDeclEcho.info.to_schema, false⟩,
       ⟨"sgen", "", McpSdk.exDeclStreamGen.info.to_schema, true⟩] := by
  rw [c6_get_tools_descriptors [McpSdk.exDeclEcho, McpSdk.exDeclStreamGen] (by decide)]
  rfl

/-- C10: for every `ToolInfo` (with the distinct parameter names the Python
dict guarantees), the schema produced by `to_schema` has one `properties`
entry per declared parameter, in declaration order; its `required` list
holds exactly the names of the parameters declared with `required=True`;
and a property object carries a `"default"` key exactly when that
parameter's default is not `None`. -/
theorem c10_schema_shape (info : McpSdk.ToolInfo)
    (hnd : (info.parameters.map Prod.fst).Nodup) :
    McpSdk.Json.field info.to_schema "properties" =
      some (McpSdk.Json.obj (info.parameters.map (fun pp => (pp.1, McpSdk.paramProp pp.2))))
  ∧ McpSdk.Json.field info.to_schema "required" =
      some (McpSdk.Json.arr
        (((info.parameters.filter (fun pp => pp.2.required)).map Prod.fst).map McpSdk.Json.jstr))
  ∧ ∀ pp ∈ info.parameters,
      (McpSdk.paramProp pp.2).hasKey "default" = pp.2.default.isSome := by
  have hs := McpSdk.schema_foldl info.parameters [] [] (by intro pp _; rfl) hnd
  refine ⟨?_, ?_, ?_⟩
  · simp [McpSdk.ToolInfo.to_schema, hs, McpSdk.Json.field, McpSdk.jsonLookup]
  · simp [McpSdk.ToolInfo.to_schema, hs, McpSdk.Json.field, McpSdk.jsonLookup]
  · intro pp _
    cases hd : pp.2.default with
    | none => simp [McpSdk.paramProp, hd, McpSdk.Json.hasKey]
    | some d => simp [McpSdk.paramProp, hd, McpSdk.Json.hasKey]

/-- C10 witness: a schema with a required parameter carrying a default and
an optional one without. -/
theorem c10_schema_shape_witness :
    McpSdk.Json.field McpSdk.exInfo.to_schema "properties" =
      some (McpSdk.Json.obj [("a", McpSdk.paramProp McpSdk.exParamA),
        ("b", McpSdk.paramProp McpSdk.exParamB)])
  ∧ McpSdk.Json.field McpSdk.exInfo.to_schema "required" =
      some (McpSdk.Json.arr [McpSdk.Json.jstr "a"])
  ∧ (McpSdk.paramProp McpSdk.exParamA).hasKey "default" = true :=
  ⟨(c10_schema_shape McpSdk.exInfo (by decide)).1,
   (c10_schema_shape McpSdk.exInfo (by decide)).2.1,
   (c10_schema_shape McpSdk.exInfo (by decide)).2.2 ("a", McpSdk.exParamA)
     (List.mem_cons_self _ _)⟩

/-- C7 counterexample: a message event whose `id` is 10 but whose frame has
no (or a falsy) `data` line is handled without any effect: the handler's
`if event_type == "message" and data:` guard skips it, so `running` stays
true and the client does not disconnect — refuting the claim that handling
any message event with id at least 10 forces `running` to be false. -/
theorem c7_counterexample :
    SseTest.handle_event ⟨true, some 0, McpSdk.Json.jstr ""⟩
      ⟨some "message", some 10, none⟩ false =
      Except.ok ⟨true, some 0, McpSdk.Json.jstr ""⟩
  ∧ (⟨true, some 0, McpSdk.Json.jstr ""⟩ : SseTest.ClientState).running = true :=
  ⟨rfl, rfl⟩

/-- C7 amended: on an initial (non-reconnect) connection, whenever the
handler processes without raising a message event that carries truthy data
and an id of at least 10, the resulting state has `running = false`; and a
message event with an id below 10 never flips `running` this way. -/
theorem c7_disconnect_after_10 (st : SseTest.ClientState) (ev : SseTest.SSEEvent)
    (n : Int) (d : McpSdk.Json) (st2 : SseTest.ClientState)
    (hev : ev.event = some "message") (hid : ev.id = some n) (hdata : ev.data = some d)
    (htruthy : d.truthy = true)
    (hok : SseTest.handle_event st ev false = Except.ok st2) :
    (10 ≤ n → st2.running = false) ∧ (n < 10 → st2.running = st.running) := by
  rw [SseTest.handle_event] at hok
  rw [if_neg (by simp [hev])] at hok
  rw [if_pos (by simp [hev, hdata, htruthy])] at hok
  simp only [hdata] at hok
  cases hres : SseTest.pyGet d "result" (McpSdk.Json.obj []) with
  | error e => simp only [hres] at hok; exact Except.noConfusion hok
  | ok inner =>
    simp only [hres] at hok
    cases hbat : SseTest.pyGet inner "batch" (McpSdk.Json.arr []) with
    | error e => simp only [hbat] at hok; exact Except.noConfusion hok
    | ok batch =>
      simp only [hbat] at hok
      by_cases hsl : SseTest.sliceableB batch = true
      · rw [if_pos hsl] at hok
        simp only [Bool.not_false, if_pos, hid] at hok
        by_cases hn : 10 ≤ n
        · rw [if_pos hn] at hok
          simp only [Except.ok.injEq] at hok
          subst hok
          exact ⟨fun _ => rfl, fun hlt => absurd hn (by omega)⟩
        · rw [if_neg hn] at hok
          simp only [Except.ok.injEq] at hok
          subst hok
          exact ⟨fun hge => absurd hge hn, fun _ => rfl⟩
      · rw [if_neg hsl] at hok
        simp at hok

/-- C7 witness: a message event with id 10 and a non-empty batch flips
`running` to false. -/
theorem c7_disconnect_after_10_witness :
    ((10 : Int) ≤ 10 → (⟨false, some 10, McpSdk.Json.jstr ""⟩ : SseTest.ClientState).running = false)
  ∧ ((10 : Int) < 10 → (⟨false, some 10, McpSdk.Json.jstr ""⟩ : SseTest.ClientState).running =
      (⟨true, some 0, McpSdk.Json.jstr ""⟩ : SseTest.ClientState).running) :=
  c7_disconnect_after_10 ⟨true, some 0, McpSdk.Json.jstr ""⟩
    ⟨some "message", some 10,
      some (McpSdk.Json.obj [("result",
        McpSdk.Json.obj [("batch", McpSdk.Json.arr [McpSdk.Json.jint 1])])])⟩
    10
    (McpSdk.Json.obj [("result", McpSdk.Json.obj [("batch", McpSdk.Json.arr [McpSdk.Json.jint 1])])])
    ⟨false, some 10, McpSdk.Json.jstr ""⟩
    rfl rfl rfl rfl rfl

/-- C8 witness: the standard tool `dstd` returning
`\x7b"error": "boom"\x7d` has that dict passed through as-is. -/
theorem c8_error_dict_passthrough_witness :
    McpSdk.call_tool McpSdk.loadsNone McpSdk.exPluginDictStd "dstd" "" =
      McpSdk.Json.obj [("error", McpSdk.Json.jstr "boom")] :=
  (c8_error_dict_passthrough McpSdk.loadsNone McpSdk.exPluginDictStd "dstd" ""
    (McpSdk.Json.obj []) McpSdk.exDeclDictStd.func [] McpSdk.exDeclDictStd.info
    (McpSdk.PyVal.pydict [("error", McpSdk.PyVal.pystr "boom")])
    rfl rfl rfl rfl rfl rfl).1
    (McpSdk.Json.obj [("error", McpSdk.Json.jstr "boom")]) rfl rfl
